import Mathlib

/-!
# Verification of the BLS OEWS wage pipeline (`pipeline/bls_pipeline.py`)

A shallow embedding of the pipeline's data model and operations, translated
from the Python source:

* Python strings are Lean `String`s (lists of characters); `str.strip`,
  `str.zfill`, `str.replace("-", "")`, `float(...)` and `int(...)` are
  modelled explicitly below.  Numeric wage values are modelled as rationals
  (`ℚ`): every value the pipeline handles is a finite decimal literal, so no
  floating-point rounding behaviour is observable in the modelled claims.
* Python dicts are association lists in insertion order (`Dict α β`), with
  `dictGet?` / `dictInsert` / `dictUpdate` reproducing dict lookup, item
  assignment (value replaced in place, position preserved) and
  `dict.update` (per-key replacement).
* An exception escaping a function is modelled by `Option`/`Except`:
  `none` / `.error` means the Python function raised.
* The Postgres table `bls_wage_data` is a list of rows; the
  `ON CONFLICT ... DO NOTHING` insert is `insertWageRow`.  External insert
  failures (constraint violations, dropped connections) are an oracle
  `insertErr : DBRow → Option String`; transaction rollback on failure means
  the caller keeps the pre-load table.
* Network I/O is an oracle `fetch : Nat → Option Response` giving, per batch
  index, the result of `fetch_bls_batch` (`none` = transport/schema failure).
-/

set_option autoImplicit false

namespace BLSPipeline

/-! ## Python string primitives -/

/-- Characters treated as whitespace by Python's `str.strip()` (ASCII part;
the pipeline only ever meets ASCII payloads). -/
def isPySpace (c : Char) : Bool :=
  c = ' ' ∨ c = '\t' ∨ c = '\n' ∨ c = '\x0d' ∨ c = '\x0b' ∨ c = '\x0c'

/-- Strip leading and trailing whitespace from a character list. -/
def stripChars (l : List Char) : List Char :=
  ((l.dropWhile isPySpace).reverse.dropWhile isPySpace).reverse

/-- Python `str.strip()`. -/
def pyStrip (s : String) : String :=
  ⟨stripChars s.data⟩

/-- Python `str.replace(c, "")`: remove every occurrence of one character. -/
def removeAll (c : Char) (s : String) : String :=
  ⟨s.data.filter (fun x => x ≠ c)⟩

/-- Python `str.zfill(width)`: left-pad with `'0'` to `width` characters,
keeping a leading sign in front of the padding. -/
def zfill (width : Nat) (s : String) : String :=
  match s.data with
  | '+' :: rest => ⟨'+' :: (List.replicate (width - s.length) '0' ++ rest)⟩
  | '-' :: rest => ⟨'-' :: (List.replicate (width - s.length) '0' ++ rest)⟩
  | _ => ⟨List.replicate (width - s.length) '0' ++ s.data⟩

/-- Numeric value of a list of decimal digit characters. -/
def digitsToNat (l : List Char) : Nat :=
  l.foldl (fun n c => 10 * n + (c.toNat - '0'.toNat)) 0

/-- Split an optional leading sign: returns the sign as `1` or `-1` and the
remaining characters. -/
def splitSign : List Char → Int × List Char
  | '+' :: t => (1, t)
  | '-' :: t => (-1, t)
  | l => (1, l)

/-- Model of Python `int(str)` on strings: strip whitespace, optional sign,
then a non-empty run of decimal digits; anything else raises `ValueError`
(`none`).  (Underscore digit grouping and non-ASCII digits are outside the
model; the pipeline's year fields never use them.) -/
def pyInt? (s : String) : Option Int :=
  let l := stripChars s.data
  let (sgn, l₁) := splitSign l
  if l₁ ≠ [] ∧ l₁.all Char.isDigit then some (sgn * (digitsToNat l₁ : Int))
  else none

/-- Exact rational value of the decimal literal `sgn · mant · 10 ^ exp10`,
built with a single cast (and a single division when the exponent is
negative) so that the value is kernel-computable. -/
def decValue (sgn : Int) (mant : Nat) (exp10 : Int) : ℚ :=
  if 0 ≤ exp10 then ((sgn * (mant : Int) * 10 ^ exp10.toNat : Int) : ℚ)
  else ((sgn * (mant : Int) : Int) : ℚ) / (((10 : Nat) ^ (-exp10).toNat : Nat) : ℚ)

/-- Exponent / end-of-string tail of a Python float literal: empty, or
`e`/`E`, optional sign, non-empty digits.  `mant` is the literal's digit
string read as an integer and `fracLen` how many of those digits sat after
the decimal point. -/
def pyFloatExp (sgn : Int) (mant : Nat) (fracLen : Nat) : List Char → Option ℚ
  | [] => some (decValue sgn mant (-(fracLen : Int)))
  | e :: t =>
    if e = 'e' ∨ e = 'E' then
      let (esgn, t₁) := splitSign t
      let ed := t₁.takeWhile Char.isDigit
      let t₂ := t₁.dropWhile Char.isDigit
      if ed ≠ [] ∧ t₂ = [] then
        some (decValue sgn mant (esgn * (digitsToNat ed : Int) - (fracLen : Int)))
      else none
    else none

/-- Model of Python `float(str)` restricted to finite decimal literals:
strip whitespace, optional sign, digits with an optional fractional part,
optional exponent; the result is the literal's exact rational value.  A
string that matches none of this raises `ValueError` (`none`).  (`inf`/`nan`
spellings and binary rounding are outside the model; the wage feed only
carries short decimal literals.) -/
def pyFloat? (s : String) : Option ℚ :=
  let l := stripChars s.data
  let (sgn, l₁) := splitSign l
  let ip := l₁.takeWhile Char.isDigit
  let l₂ := l₁.dropWhile Char.isDigit
  match l₂ with
  | '.' :: l₃ =>
    let fp := l₃.takeWhile Char.isDigit
    let l₄ := l₃.dropWhile Char.isDigit
    if ip = [] ∧ fp = [] then none
    else pyFloatExp sgn (digitsToNat (ip ++ fp)) fp.length l₄
  | _ =>
    if ip = [] then none
    else pyFloatExp sgn (digitsToNat ip) 0 l₂

/-! ## Python dicts as insertion-ordered association lists -/

/-- A Python dict: an association list in insertion order. -/
abbrev Dict (α β : Type) := List (α × β)

/-- Dict lookup `d.get(k)`: the entry for `k`, if any (keys are unique, so
"first match" is "the match"). -/
def dictGet? {α β : Type} [DecidableEq α] : Dict α β → α → Option β
  | [], _ => none
  | (a, b) :: t, k => if a = k then some b else dictGet? t k

/-- Dict item assignment `d[k] = v`: replace in place if the key is present,
else append — exactly Python's insertion-order semantics. -/
def dictInsert {α β : Type} [DecidableEq α] : Dict α β → α → β → Dict α β
  | [], k, v => [(k, v)]
  | (a, b) :: t, k, v => if a = k then (a, v) :: t else (a, b) :: dictInsert t k v

/-- Python `d.update(p)`: assign every entry of `p` into `d`, in `p`'s
order.  Note this *replaces* the stored value wholesale for keys already
present. -/
def dictUpdate {α β : Type} [DecidableEq α] (d p : Dict α β) : Dict α β :=
  p.foldl (fun acc kv => dictInsert acc kv.1 kv.2) d

/-! ## Pipeline constants (`bls_pipeline.py` module level) -/

/-- Constant `MSA_CODES`: the five TechNova metro areas, name → 5-digit code. -/
def MSA_CODES : Dict String String :=
  [("Austin TX", "12420"),
   ("New York NY", "35620"),
   ("San Francisco CA", "41860"),
   ("Washington DC", "47900"),
   ("Denver CO", "19740")]

/-- Constant `DATA_TYPES`: BLS OEWS data-type code → `bls_wage_data` column name. -/
def DATA_TYPES : Dict String String :=
  [("03", "annual_mean"),
   ("11", "pct_10"),
   ("12", "pct_25"),
   ("13", "pct_50"),
   ("14", "pct_75"),
   ("15", "pct_90")]

/-- Constant `INDUSTRY_CODE`: OEWS cross-industry code. -/
def INDUSTRY_CODE : String := "000000"

/-! ## Step 2: series construction -/

/-- Function `soc_to_digits`: SOC code `'15-1252'` → 6-digit form `'151252'`
(`soc_code.replace("-", "").zfill(6)`). -/
def soc_to_digits (soc_code : String) : String :=
  zfill 6 (removeAll '-' soc_code)

/-- Function `msa_to_area_code`: zero-pad a 5-digit MSA code to 7 digits. -/
def msa_to_area_code (msa_code : String) : String :=
  zfill 7 msa_code

/-- Well-formedness of a catalog SOC code: the standard `XX-XXXX` shape
(digits around one dash) that the source's docstring assumes
(`'15-1252'`). -/
def isSOCFormat (s : String) : Bool :=
  match s.data with
  | [a, b, dash, c, d, e, f] =>
    dash == '-' && a.isDigit && b.isDigit && c.isDigit && d.isDigit
      && e.isDigit && f.isDigit
  | _ => false

/-- Function `build_series_id`: `"OEUM" + area(7) + industry(6) + soc(6) + data_type`. -/
def build_series_id (msa_code soc_code data_type : String) : String :=
  "OEUM" ++ msa_to_area_code msa_code ++ INDUSTRY_CODE
    ++ soc_to_digits soc_code ++ data_type

/-- One series descriptor, as built by `build_all_series`. -/
structure SeriesDesc where
  series_id : String
  msa_name : String
  msa_code : String
  soc_code : String
  soc_title : String
  data_type : String
  col_name : String
deriving Repr, DecidableEq

/-- Function `build_all_series`: one descriptor per MSA × SOC code × data type, in the
source's nesting order.  The catalog `soc_map` is the `soc_code_reference`
dict, embedded as an insertion-ordered list of (code, title) pairs. -/
def build_all_series (soc_map : Dict String String) : List SeriesDesc :=
  MSA_CODES.flatMap (fun mp =>
    soc_map.flatMap (fun sp =>
      DATA_TYPES.map (fun dp =>
        { series_id := build_series_id mp.2 sp.1 dp.1
          msa_name := mp.1
          msa_code := mp.2
          soc_code := sp.1
          soc_title := sp.2
          data_type := dp.1
          col_name := dp.2 })))

/-! ## Step 4: response parsing -/

/-- Function `safe_wage`: strip, map the suppression sentinels to `None`, otherwise
try `float(...)`, mapping `ValueError` to `None`. -/
def safe_wage (value_str : String) : Option ℚ :=
  let v := pyStrip value_str
  if v = "-" ∨ v = "**" ∨ v = "N/A" ∨ v = "NA" ∨ v = "" then none
  else pyFloat? v

/-- One JSON data point of a series: optional `"year"` and `"value"` string
fields (`point.get(...)` supplies the defaults at use sites). -/
structure DataPoint where
  year : Option String
  value : Option String
deriving Repr, DecidableEq

/-- One per-series JSON object: optional `"seriesID"` (default `""`) and
optional `"data"` list (default `[]`). -/
structure SeriesJson where
  seriesID : Option String
  data : Option (List DataPoint)
deriving Repr, DecidableEq

/-- A BLS response that passed `fetch_bls_batch`'s top-level validation (it
has `status` and `Results` keys).  `series = none` models a present
`Results.series` that is not a list (`parse_response`'s
`isinstance` guard); a missing `series` key is `some []`. -/
structure Response where
  status : String
  series : Option (List SeriesJson)
deriving Repr, DecidableEq

/-- Aggregation key: `(soc_code, msa_code, survey_year)`. -/
abbrev Key := String × String × Int

/-- One aggregated wage record (the per-key dict built by `parse_response`).
The six wage columns start absent and are filled per statistic; the Python
record is a string-keyed dict, but `parse_response` only ever stores the
five base fields plus columns drawn from `DATA_TYPES`, so a fixed structure
is faithful. -/
structure WageRecord where
  soc_code : String
  soc_title : String
  msa_code : String
  msa_name : String
  survey_year : Int
  annual_mean : Option ℚ := none
  pct_10 : Option ℚ := none
  pct_25 : Option ℚ := none
  pct_50 : Option ℚ := none
  pct_75 : Option ℚ := none
  pct_90 : Option ℚ := none
deriving Repr, DecidableEq

/-- Assignment `partial[key][meta["col_name"]] = wage`: set the named wage column.  A
column name outside `DATA_TYPES` never occurs (descriptors are built from
`DATA_TYPES`), so the catch-all leaves the record unchanged. -/
def setCol (r : WageRecord) (col : String) (w : ℚ) : WageRecord :=
  if col = "annual_mean" then { r with annual_mean := some w }
  else if col = "pct_10" then { r with pct_10 := some w }
  else if col = "pct_25" then { r with pct_25 := some w }
  else if col = "pct_50" then { r with pct_50 := some w }
  else if col = "pct_75" then { r with pct_75 := some w }
  else if col = "pct_90" then { r with pct_90 := some w }
  else r

/-- The year of the first data point: `int(point.get("year", SURVEY_YEAR))`.
`none` models the `ValueError` raised by `int` on a malformed year string. -/
def pointYear (survey_year : Int) (point : DataPoint) : Option Int :=
  match point.year with
  | none => some survey_year
  | some ys => pyInt? ys

/-- The record the parsed wage is merged into: the key's existing record,
or (on the key's first contribution) a fresh one built from the
descriptor's denormalized fields and the data point's year. -/
def baseRecord (pmap : Dict Key WageRecord) (meta : SeriesDesc)
    (year : Int) : WageRecord :=
  match dictGet? pmap (meta.soc_code, meta.msa_code, year) with
  | some r => r
  | none =>
    { soc_code := meta.soc_code
      soc_title := meta.soc_title
      msa_code := meta.msa_code
      msa_name := meta.msa_name
      survey_year := year }

/-- One iteration of `parse_response`'s `for series in series_list` loop:
either skips (unknown ID, no data, suppressed value), merges one wage value
into the partial dict, or raises (`none`, from `int` on a bad year). -/
def parseOneSeries (survey_year : Int) (series_meta : Dict String SeriesDesc)
    (series : SeriesJson) (pmap : Dict Key WageRecord) :
    Option (Dict Key WageRecord) :=
  match dictGet? series_meta (series.seriesID.getD "") with
  | none => some pmap
  | some meta =>
    match series.data.getD [] with
    | [] => some pmap
    | point :: _ =>
      match pointYear survey_year point with
      | none => none
      | some year =>
        match safe_wage (point.value.getD "") with
        | none => some pmap
        | some wage =>
          some (dictInsert pmap (meta.soc_code, meta.msa_code, year)
            (setCol (baseRecord pmap meta year) meta.col_name wage))

/-- The `for` loop of `parse_response` over the series list, threading the
partial dict; a raise in any iteration aborts the whole call. -/
def parseSeriesList (survey_year : Int) (series_meta : Dict String SeriesDesc) :
    List SeriesJson → Dict Key WageRecord → Option (Dict Key WageRecord)
  | [], pmap => some pmap
  | series :: rest, pmap =>
    match parseOneSeries survey_year series_meta series pmap with
    | none => none
    | some pmap' => parseSeriesList survey_year series_meta rest pmap'

/-- Function `parse_response`: extract wage values from one response into a partial
dict keyed by `(soc_code, msa_code, year)`.  Returns `none` when the Python
function would raise (a data point carries a non-integer year string). -/
def parse_response (survey_year : Int) (response_data : Response)
    (series_meta : Dict String SeriesDesc) : Option (Dict Key WageRecord) :=
  match response_data.series with
  | none => some []
  | some series_list => parseSeriesList survey_year series_meta series_list []

/-! ## Step 5: the load into `bls_wage_data` -/

/-- A row of `bls_wage_data` as written by `BLS_UPSERT_SQL`. -/
structure DBRow where
  soc_code : String
  soc_title : String
  msa_code : String
  msa_name : String
  reference_year : Int
  annual_mean : Option ℚ
  pct_10 : Option ℚ
  pct_25 : Option ℚ
  pct_50 : Option ℚ
  pct_75 : Option ℚ
  pct_90 : Option ℚ
  data_source : String
deriving Repr, DecidableEq

/-- The insert parameters built from one aggregated record (absent wage
columns become SQL NULL; `data_source` is the constant tag). -/
def rowOfRecord (r : WageRecord) : DBRow :=
  { soc_code := r.soc_code
    soc_title := r.soc_title
    msa_code := r.msa_code
    msa_name := r.msa_name
    reference_year := r.survey_year
    annual_mean := r.annual_mean
    pct_10 := r.pct_10
    pct_25 := r.pct_25
    pct_50 := r.pct_50
    pct_75 := r.pct_75
    pct_90 := r.pct_90
    data_source := "BLS_OEWS" }

/-- The uniqueness key of `bls_wage_data`:
`(soc_code, msa_code, reference_year)`. -/
def rowKey (row : DBRow) : Key :=
  (row.soc_code, row.msa_code, row.reference_year)

/-- Whether the table already holds a row with this key. -/
def dbHasKey (db : List DBRow) (k : Key) : Bool :=
  db.any (fun row => rowKey row = k)

/-- One `INSERT ... ON CONFLICT (soc_code, msa_code, reference_year) DO
NOTHING`: on conflict the table is unchanged and `cur.rowcount = 0`, else
the row is appended and `cur.rowcount = 1`. -/
def insertWageRow (db : List DBRow) (row : DBRow) : List DBRow × Nat :=
  if dbHasKey db (rowKey row) then (db, 0) else (db ++ [row], 1)

/-- The insert loop of `load_wage_rows` over `aggregated.values()`.
`insertErr` is the oracle for external insert failures (constraint
violation, connection drop): `some msg` means that cursor execute raises.
A raise aborts the loop; the surrounding transaction is rolled back by the
caller, so the error branch reports only the message and the caller keeps
the pre-load table. -/
def loadRows (insertErr : DBRow → Option String) :
    List WageRecord → List DBRow → Nat → Except String (Nat × List DBRow)
  | [], db, written => Except.ok (written, db)
  | r :: rest, db, written =>
    match insertErr (rowOfRecord r) with
    | some msg => Except.error msg
    | none =>
      loadRows insertErr rest (insertWageRow db (rowOfRecord r)).1
        (written + (insertWageRow db (rowOfRecord r)).2)

/-- Function `load_wage_rows`: insert every aggregated record inside one transaction;
returns the count of rows actually written and the committed table, or the
propagated exception after rollback. -/
def load_wage_rows (insertErr : DBRow → Option String) (db : List DBRow)
    (aggregated : Dict Key WageRecord) : Except String (Nat × List DBRow) :=
  loadRows insertErr (aggregated.map (fun kv => kv.2)) db 0

/-! ## `main`: batching loop and run outcome -/

/-- In `main`, the `returned_ids` set: the series IDs whose `data` list is truthy
(non-empty), deduplicated because Python builds a set. -/
def returned_ids (resp : Response) : List String :=
  ((resp.series.getD []).filterMap (fun s =>
    match s.data.getD [] with
    | [] => none
    | _ :: _ => some (s.seriesID.getD ""))).dedup

/-- The cross-batch mutable state of `main`'s fetch loop. -/
structure LoopState where
  master : Dict Key WageRecord := []
  series_gaps : List String := []
  series_with_data : Nat := 0
deriving Repr, DecidableEq

/-- The message of the `ValueError` raised by `int()` on a malformed year
string (the only exception `parse_response` can raise). -/
def INT_PARSE_MSG : String := "invalid literal for int() with base 10"

/-- One iteration of `main`'s batch loop: a failed fetch (`none` response)
gaps the whole batch; otherwise the parsed partial dict is merged into the
master via `dict.update`, the batch's unreturned IDs are gapped, and the
returned-series counter advances.  `none` models `parse_response`
raising. -/
def processBatch (survey_year : Int) (series_meta : Dict String SeriesDesc)
    (st : LoopState) (batch_ids : List String) (response : Option Response) :
    Option LoopState :=
  match response with
  | none => some { st with series_gaps := st.series_gaps ++ batch_ids }
  | some resp =>
    match parse_response survey_year resp series_meta with
    | none => none
    | some pmap =>
      some { master := dictUpdate st.master pmap
             series_gaps := st.series_gaps
               ++ batch_ids.filter (fun sid => ¬ sid ∈ returned_ids resp)
             series_with_data :=
               st.series_with_data + (returned_ids resp).length }

/-- The function `runBatches` is `main`'s batch loop over (batch identifiers, fetch outcome) pairs.
Returns the final state, plus the exception message if some
`parse_response` raised mid-loop (the state then reflects the batches
already processed, exactly as the Python locals would). -/
def runBatches (survey_year : Int) (series_meta : Dict String SeriesDesc) :
    List (List String × Option Response) → LoopState →
    LoopState × Option String
  | [], st => (st, none)
  | (ids, resp) :: rest, st =>
    match processBatch survey_year series_meta st ids resp with
    | none => (st, some INT_PARSE_MSG)
    | some st' => runBatches survey_year series_meta rest st'

/-- Structural worker for `chunkList`: the fuel starts at the list length
and dominates the recursion depth, so it never runs out. -/
def chunkListAux {α : Type} (n : Nat) : Nat → List α → List (List α)
  | _, [] => []
  | 0, _ :: _ => []
  | fuel + 1, a :: t =>
    (a :: t).take (max n 1) :: chunkListAux n fuel ((a :: t).drop (max n 1))

/-- Chunking `all_series[i : i + BATCH_SIZE]`.  The source's batch size is
25 or 50; `max n 1` only guards the (unreachable) size-0 case so the
recursion makes progress. -/
def chunkList {α : Type} (n : Nat) (l : List α) : List (List α) :=
  chunkListAux n l.length l

/-- The series-ID batches `main` sends, paired with each batch's fetch
outcome from the network oracle (`fetch i` is what `fetch_bls_batch`
returned for batch index `i`). -/
def pairList (batch_size : Nat) (soc_map : Dict String String)
    (fetch : Nat → Option Response) : List (List String × Option Response) :=
  let batches := chunkList batch_size (build_all_series soc_map)
  (List.range batches.length).map (fun i =>
    ((batches.getD i []).map (fun s => s.series_id), fetch i))

/-- In `main`, the lookup map `series_meta = {s["series_id"]: s for s in
all_series}`: a dict built by inserting every descriptor under its
identifier (identifiers are unique, so order of insertion is
immaterial). -/
def seriesMetaOf (soc_map : Dict String String) : Dict String SeriesDesc :=
  ((build_all_series soc_map).map (fun s => (s.series_id, s))).foldl
    (fun acc kv => dictInsert acc kv.1 kv.2) []

/-- One `pipeline_run_log` audit row (the fields the claims observe). -/
structure AuditRow where
  pipeline_type : String
  status : String
  records_requested : Nat
  records_received : Nat
  records_written : Nat
  discrepancy_flag : Bool
  error_message : Option String
deriving Repr, DecidableEq

/-- Build the audit row `log_pipeline_run` writes (discrepancy flag is
`records_received != records_written`). -/
def auditRow (status : String) (requested received written : Nat)
    (err : Option String) : AuditRow :=
  { pipeline_type := "BLS_OEWS"
    status := status
    records_requested := requested
    records_received := received
    records_written := written
    discrepancy_flag := received ≠ written
    error_message := err }

/-- The observable outcome of one `main()` invocation. -/
structure RunResult where
  status : String
  error_msg : Option String
  records_requested : Nat
  records_received : Nat
  records_written : Nat
  series_gaps : List String
  master : Dict Key WageRecord
  db : List DBRow
  audit : List AuditRow
  exit_code : Nat
deriving Repr, DecidableEq

/-- The whole fetch/aggregate loop of one run: final state plus the parse
exception, if one escaped. -/
def mainRunLoop (survey_year : Int) (batch_size : Nat)
    (soc_map : Dict String String) (fetch : Nat → Option Response) :
    LoopState × Option String :=
  runBatches survey_year (seriesMetaOf soc_map)
    (pairList batch_size soc_map fetch) {}

/-- The tail of `main()` after the batch loop: on a loop exception the run
is FAILED before `records_received` is assigned; otherwise the aggregation
is loaded (when non-empty) and a load exception fails the run with the
table rolled back (`db0`); the one audit row is written in every branch. -/
def finishRun (total_series : Nat) (insertErr : DBRow → Option String)
    (db0 : List DBRow) (st : LoopState) (loopErr : Option String) :
    RunResult :=
  match loopErr with
  | some msg =>
    { status := "FAILED", error_msg := some msg
      records_requested := total_series, records_received := 0
      records_written := 0
      series_gaps := st.series_gaps, master := st.master, db := db0
      audit := [auditRow "FAILED" total_series 0 0 (some msg)]
      exit_code := 1 }
  | none =>
    if st.master.length > 0 then
      match load_wage_rows insertErr db0 st.master with
      | Except.error msg =>
        { status := "FAILED", error_msg := some msg
          records_requested := total_series
          records_received := st.master.length
          records_written := 0
          series_gaps := st.series_gaps, master := st.master, db := db0
          audit :=
            [auditRow "FAILED" total_series st.master.length 0 (some msg)]
          exit_code := 1 }
      | Except.ok (written, db') =>
        { status := "SUCCESS", error_msg := none
          records_requested := total_series
          records_received := st.master.length
          records_written := written
          series_gaps := st.series_gaps, master := st.master, db := db'
          audit :=
            [auditRow "SUCCESS" total_series st.master.length written none]
          exit_code := 0 }
    else
      { status := "SUCCESS", error_msg := none
        records_requested := total_series
        records_received := st.master.length
        records_written := 0
        series_gaps := st.series_gaps, master := st.master, db := db0
        audit := [auditRow "SUCCESS" total_series st.master.length 0 none]
        exit_code := 0 }

/-- Model of `main()`, from the catalog read onwards.  Parameters stand for the
ambient configuration and external world: the survey year and batch size
(environment), the catalog rows (`soc_code_reference` read), the network
oracle, the insert-failure oracle, and the initial `bls_wage_data` table.
The audit write itself is assumed to succeed (its own failure is swallowed
in the source and changes nothing the claims observe).  An empty catalog
raises `RuntimeError`, caught by the top-level handler: FAILED, audit row,
exit 1. -/
def mainRun (survey_year : Int) (batch_size : Nat)
    (soc_map : Dict String String) (fetch : Nat → Option Response)
    (insertErr : DBRow → Option String) (db0 : List DBRow) : RunResult :=
  if soc_map.isEmpty then
    { status := "FAILED"
      error_msg :=
        some "soc_code_reference is empty - run seed_reference_data first."
      records_requested := 0, records_received := 0, records_written := 0
      series_gaps := [], master := [], db := db0
      audit := [auditRow "FAILED" 0 0 0
        (some "soc_code_reference is empty - run seed_reference_data first.")]
      exit_code := 1 }
  else
    finishRun (build_all_series soc_map).length insertErr db0
      (mainRunLoop survey_year batch_size soc_map fetch).1
      (mainRunLoop survey_year batch_size soc_map fetch).2

/-! ## Basic lemmas about the string primitives -/

theorem mk_length (l : List Char) : (String.mk l).length = l.length := rfl

theorem digit_ne_dash {c : Char} (h : c.isDigit = true) : c ≠ '-' := by
  intro hc; subst hc; exact absurd h (by decide)

theorem digit_ne_plus {c : Char} (h : c.isDigit = true) : c ≠ '+' := by
  intro hc; subst hc; exact absurd h (by decide)

/-- A `zfill` of an all-digit string of length at most `w` has length
exactly `w`. -/
theorem zfill_length {w : Nat} {s : String}
    (hdig : s.data.all Char.isDigit = true) (hw : s.length ≤ w) :
    (zfill w s).length = w := by
  have hlen : s.length = s.data.length := rfl
  unfold zfill
  split
  case _ rest heq =>
    rw [heq] at hdig
    simp only [List.all_cons, Bool.and_eq_true] at hdig
    exact absurd hdig.1 (by decide)
  case _ rest heq =>
    rw [heq] at hdig
    simp only [List.all_cons, Bool.and_eq_true] at hdig
    exact absurd hdig.1 (by decide)
  case _ =>
    simp only [mk_length, List.length_append, List.length_replicate]
    omega

/-- Unpack a well-formed SOC code: its seven characters, and the value of
`soc_to_digits` on it. -/
theorem socFormat_spec {s : String} (h : isSOCFormat s = true) :
    ∃ a b c d e f : Char,
      s.data = [a, b, '-', c, d, e, f] ∧
      (a.isDigit ∧ b.isDigit ∧ c.isDigit ∧ d.isDigit ∧ e.isDigit ∧ f.isDigit) ∧
      soc_to_digits s = ⟨[a, b, c, d, e, f]⟩ := by
  unfold isSOCFormat at h
  split at h
  case _ a b dash c d e f heq =>
    simp only [Bool.and_eq_true, beq_iff_eq] at h
    obtain ⟨⟨⟨⟨⟨⟨hdash, ha⟩, hb⟩, hc⟩, hd⟩, he⟩, hf⟩ := h
    subst hdash
    refine ⟨a, b, c, d, e, f, heq, ⟨ha, hb, hc, hd, he, hf⟩, ?_⟩
    have hfil : removeAll '-' s = ⟨[a, b, c, d, e, f]⟩ := by
      unfold removeAll
      rw [heq]
      simp [digit_ne_dash ha, digit_ne_dash hb, digit_ne_dash hc,
        digit_ne_dash hd, digit_ne_dash he, digit_ne_dash hf]
    unfold soc_to_digits
    rw [hfil]
    unfold zfill
    split
    case _ rest heq2 =>
      simp only [List.cons.injEq] at heq2
      exact absurd heq2.1 (digit_ne_plus ha)
    case _ rest heq2 =>
      simp only [List.cons.injEq] at heq2
      exact absurd heq2.1 (digit_ne_dash ha)
    case _ =>
      simp [mk_length]
  case _ =>
    exact absurd h (by simp)

/-- A well-formed SOC code gives a 6-character `soc_to_digits`. -/
theorem soc_to_digits_length {s : String} (h : isSOCFormat s = true) :
    (soc_to_digits s).length = 6 := by
  obtain ⟨a, b, c, d, e, f, -, -, hdig⟩ := socFormat_spec h
  rw [hdig]; rfl

/-- Claim C4: `safe_wage` maps each suppression sentinel and the empty string
to absent, parses `"125000"` to the number `125000`, maps the non-numeric
`"12x"` to absent, and is total: every input string yields either a number
or absent (the embedding returns an `Option`, never an exception). -/
theorem safe_wage_sentinels_and_total :
    safe_wage "-" = none ∧ safe_wage "**" = none ∧ safe_wage "N/A" = none ∧
    safe_wage "NA" = none ∧ safe_wage "" = none ∧
    safe_wage "125000" = some 125000 ∧ safe_wage "12x" = none ∧
    ∀ s : String, (∃ q : ℚ, safe_wage s = some q) ∨ safe_wage s = none := by
  refine ⟨by decide, by decide, by decide, by decide, by decide, by decide,
    by decide, fun s => ?_⟩
  cases h : safe_wage s with
  | none => exact Or.inr rfl
  | some q => exact Or.inl ⟨q, rfl⟩

/-- Claim C3: for a 5-digit area code, a `XX-XXXX` occupation code and a
2-character statistic type code, `build_series_id` is the concatenation of
the fixed prefix `"OEUM"`, the area code zero-padded to 7 digits, the
industry code `"000000"`, the dashless occupation code zero-padded to
6 digits, and the type code, for a fixed total length of 25; on occupation
`"15-1252"`, area `"19740"` and type `"03"` it yields the prefix followed
by `"0019740" ++ "000000" ++ "151252" ++ "03"`. -/
theorem build_series_id_format {msa_code soc_code data_type : String}
    (hm : msa_code.length = 5) (hmd : msa_code.data.all Char.isDigit = true)
    (hs : isSOCFormat soc_code = true) (hd : data_type.length = 2) :
    build_series_id msa_code soc_code data_type =
      "OEUM" ++ zfill 7 msa_code ++ "000000"
        ++ zfill 6 (removeAll '-' soc_code) ++ data_type ∧
    (build_series_id msa_code soc_code data_type).length = 25 ∧
    build_series_id "19740" "15-1252" "03" =
      "OEUM" ++ "0019740" ++ "000000" ++ "151252" ++ "03" := by
  refine ⟨rfl, ?_, by decide⟩
  have h7 : (zfill 7 msa_code).length = 7 := zfill_length hmd (by omega)
  have h6 : (soc_to_digits soc_code).length = 6 := soc_to_digits_length hs
  simp only [build_series_id, msa_to_area_code, INDUSTRY_CODE,
    String.length_append, h7, h6, hd]
  rfl

/-- Closed witness for `build_series_id_format` at the spec's example. -/
theorem build_series_id_format_witness :
    build_series_id "19740" "15-1252" "03" =
      "OEUM" ++ zfill 7 "19740" ++ "000000"
        ++ zfill 6 (removeAll '-' "15-1252") ++ "03" ∧
    (build_series_id "19740" "15-1252" "03").length = 25 :=
  ⟨(@build_series_id_format "19740" "15-1252" "03"
      (by decide) (by decide) (by decide) (by decide)).1,
    (@build_series_id_format "19740" "15-1252" "03"
      (by decide) (by decide) (by decide) (by decide)).2.1⟩

/-! ## C2: series count and identifier uniqueness -/

/-- Function `soc_to_digits` is injective on well-formed SOC codes: the code is
recoverable from its digits by re-inserting the dash. -/
theorem soc_to_digits_inj {s₁ s₂ : String} (h₁ : isSOCFormat s₁ = true)
    (h₂ : isSOCFormat s₂ = true) (h : soc_to_digits s₁ = soc_to_digits s₂) :
    s₁ = s₂ := by
  obtain ⟨a, b, c, d, e, f, hdata₁, -, hd₁⟩ := socFormat_spec h₁
  obtain ⟨a', b', c', d', e', f', hdata₂, -, hd₂⟩ := socFormat_spec h₂
  rw [hd₁, hd₂] at h
  have hl : ([a, b, c, d, e, f] : List Char) = [a', b', c', d', e', f'] :=
    congrArg String.data h
  simp only [List.cons.injEq, and_true] at hl
  obtain ⟨ha, hb, hc, hd, he, hf⟩ := hl
  apply String.ext
  rw [hdata₁, hdata₂, ha, hb, hc, hd, he, hf]

/-- Function `build_series_id` separates its three inputs: on the five MSA codes,
well-formed SOC codes and the six data-type codes, equal identifiers force
equal inputs (the identifier splits into fixed-length segments). -/
theorem build_series_id_inj {m₁ m₂ s₁ s₂ d₁ d₂ : String}
    (hm₁ : m₁ ∈ MSA_CODES.map Prod.snd) (hm₂ : m₂ ∈ MSA_CODES.map Prod.snd)
    (hs₁ : isSOCFormat s₁ = true) (hs₂ : isSOCFormat s₂ = true)
    (_hd₁ : d₁ ∈ DATA_TYPES.map Prod.fst) (_hd₂ : d₂ ∈ DATA_TYPES.map Prod.fst)
    (h : build_series_id m₁ s₁ d₁ = build_series_id m₂ s₂ d₂) :
    m₁ = m₂ ∧ s₁ = s₂ ∧ d₁ = d₂ := by
  have hz : ∀ m ∈ MSA_CODES.map Prod.snd, (msa_to_area_code m).length = 7 := by
    decide
  have hzinj : ∀ m ∈ MSA_CODES.map Prod.snd, ∀ m' ∈ MSA_CODES.map Prod.snd,
      msa_to_area_code m = msa_to_area_code m' → m = m' := by decide
  have hdata : "OEUM".data ++ ((msa_to_area_code m₁).data
        ++ (INDUSTRY_CODE.data ++ ((soc_to_digits s₁).data ++ d₁.data)))
      = "OEUM".data ++ ((msa_to_area_code m₂).data
        ++ (INDUSTRY_CODE.data ++ ((soc_to_digits s₂).data ++ d₂.data))) := by
    have hd := congrArg String.data h
    simpa only [build_series_id, String.data_append, List.append_assoc]
      using hd
  have h1 := List.append_cancel_left hdata
  have hzlen : (msa_to_area_code m₁).data.length
      = (msa_to_area_code m₂).data.length := (hz m₁ hm₁).trans (hz m₂ hm₂).symm
  obtain ⟨hzeq, h2⟩ := List.append_inj h1 hzlen
  have h3 := List.append_cancel_left h2
  have hsdlen : (soc_to_digits s₁).data.length
      = (soc_to_digits s₂).data.length :=
    (soc_to_digits_length hs₁).trans (soc_to_digits_length hs₂).symm
  obtain ⟨hsdeq, h4⟩ := List.append_inj h3 hsdlen
  exact ⟨hzinj m₁ hm₁ m₂ hm₂ (String.ext hzeq),
    soc_to_digits_inj hs₁ hs₂ (String.ext hsdeq), String.ext h4⟩

/-- Length of a `flatMap` whose pieces all have the same length. -/
theorem length_flatMap_const {α β : Type} {l : List α} {f : α → List β}
    {n : Nat} (h : ∀ x ∈ l, (f x).length = n) :
    (l.flatMap f).length = n * l.length := by
  induction l with
  | nil => simp
  | cons a t ih =>
    simp only [List.flatMap_cons, List.length_append, List.length_cons,
      h a (by simp), ih (fun x hx => h x (List.mem_cons_of_mem a hx))]
    ring

/-- Function `build_all_series` always yields `5 × N × 6 = 30 N` descriptors. -/
theorem build_all_series_length (soc_map : Dict String String) :
    (build_all_series soc_map).length = 30 * soc_map.length := by
  unfold build_all_series
  rw [@length_flatMap_const _ _ _ _ (6 * soc_map.length) ?hin]
  case hin =>
    intro mp _
    rw [@length_flatMap_const _ _ _ _ 6 ?hdt]
    case hdt =>
      intro sp _
      rw [List.length_map]
      rfl
  have h5 : MSA_CODES.length = 5 := rfl
  rw [h5]
  ring

/-- The identifiers of `build_all_series`, as the underlying triple
`flatMap` of raw strings. -/
theorem build_all_series_ids_eq (soc_map : Dict String String) :
    (build_all_series soc_map).map (fun s => s.series_id)
      = MSA_CODES.flatMap (fun mp => soc_map.flatMap (fun sp =>
          DATA_TYPES.map (fun dp => build_series_id mp.2 sp.1 dp.1))) := by
  unfold build_all_series
  simp only [List.map_flatMap, List.map_map]
  rfl

/-- No two descriptors of `build_all_series` carry the same identifier,
for any catalog of well-formed, pairwise-distinct SOC codes. -/
theorem build_all_series_ids_nodup (soc_map : Dict String String)
    (hfmt : ∀ p ∈ soc_map, isSOCFormat p.1 = true)
    (hkeys : (soc_map.map Prod.fst).Nodup) :
    ((build_all_series soc_map).map (fun s => s.series_id)).Nodup := by
  rw [build_all_series_ids_eq, List.nodup_flatMap]
  have hdtinj : ∀ p ∈ DATA_TYPES, ∀ q ∈ DATA_TYPES, p.1 = q.1 → p = q := by
    decide
  constructor
  · -- each MSA block is duplicate-free
    intro mp hmp
    rw [List.nodup_flatMap]
    have hm : mp.2 ∈ MSA_CODES.map Prod.snd := List.mem_map_of_mem _ hmp
    constructor
    · -- each SOC block is duplicate-free (data-type codes are distinct)
      intro sp hsp
      refine List.Nodup.map_on ?_ (by decide)
      intro dp hdp dp' hdp' heq
      exact hdtinj dp hdp dp' hdp'
        ((build_series_id_inj hm hm (hfmt sp hsp) (hfmt sp hsp)
          (List.mem_map_of_mem _ hdp) (List.mem_map_of_mem _ hdp') heq).2.2)
    · -- SOC blocks with distinct codes are disjoint
      have hpair : soc_map.Pairwise (fun p q => p.1 ≠ q.1) :=
        List.pairwise_map.mp hkeys
      refine List.Pairwise.imp_of_mem ?_ hpair
      intro p q hp hq hne x hx₁ hx₂
      obtain ⟨dp, hdp, hxp⟩ := List.mem_map.mp hx₁
      obtain ⟨dq, hdq, hxq⟩ := List.mem_map.mp hx₂
      exact hne ((build_series_id_inj hm hm (hfmt p hp) (hfmt q hq)
        (List.mem_map_of_mem _ hdp) (List.mem_map_of_mem _ hdq)
        (hxp.trans hxq.symm)).2.1)
  · -- MSA blocks with distinct area codes are disjoint
    have hpairm : MSA_CODES.Pairwise (fun p q => p.2 ≠ q.2) := by decide
    refine List.Pairwise.imp_of_mem ?_ hpairm
    intro mp mq hmp hmq hne x hx₁ hx₂
    obtain ⟨sp, hsp, hxp⟩ := List.mem_flatMap.mp hx₁
    obtain ⟨sq, hsq, hxq⟩ := List.mem_flatMap.mp hx₂
    obtain ⟨dp, hdp, hxp'⟩ := List.mem_map.mp hxp
    obtain ⟨dq, hdq, hxq'⟩ := List.mem_map.mp hxq
    exact hne ((build_series_id_inj (List.mem_map_of_mem _ hmp)
      (List.mem_map_of_mem _ hmq) (hfmt sp hsp) (hfmt sq hsq)
      (List.mem_map_of_mem _ hdp) (List.mem_map_of_mem _ hdq)
      (hxp'.trans hxq'.symm)).1)

/-- Claim C2: for every non-empty catalog of N well-formed, distinct SOC
codes, `build_all_series` returns exactly `30 N` descriptors
(5 geographies × N × 6 statistics) with pairwise-distinct identifier
strings.  Determinism is inherent: the construction is a pure function of
the catalog, so the same catalog always yields the same identifiers in the
same order. -/
theorem build_all_series_count_unique (soc_map : Dict String String)
    (_hne : soc_map ≠ [])
    (hfmt : ∀ p ∈ soc_map, isSOCFormat p.1 = true)
    (hkeys : (soc_map.map Prod.fst).Nodup) :
    (build_all_series soc_map).length = 30 * soc_map.length ∧
    ((build_all_series soc_map).map (fun s => s.series_id)).Nodup :=
  ⟨build_all_series_length soc_map,
    build_all_series_ids_nodup soc_map hfmt hkeys⟩

/-- Closed witness for `build_all_series_count_unique` on a concrete
two-entry catalog: 60 descriptors, all identifiers distinct. -/
theorem build_all_series_count_unique_witness :
    (build_all_series [("15-1252", "Software Developers"),
        ("29-1141", "Registered Nurses")]).length = 30 * 2 ∧
    ((build_all_series [("15-1252", "Software Developers"),
        ("29-1141", "Registered Nurses")]).map (fun s => s.series_id)).Nodup :=
  build_all_series_count_unique
    [("15-1252", "Software Developers"), ("29-1141", "Registered Nurses")]
    (by decide) (by decide) (by decide)

/-! ## C1: batch-merge counterexample

`main` merges each batch's partial dict with `master.update(partial)`.
Python's `dict.update` *replaces* the stored record for a key that is
already present, so when the six series of one `(msa, soc)` pair straddle a
batch boundary (which the real run's `600`-series / batch-size-50 layout
forces, as does the scenario below), the statistic columns contributed by
the earlier batch are silently dropped. -/

/-- A one-occupation catalog; its 30 series split as 24 + 6 across the five
MSAs, so batch size 25 puts Denver's `"03"` series in batch 1 and Denver's
five remaining series in batch 2. -/
def socMapC1 : Dict String String := [("15-1252", "Software Developers")]

/-- Batch 1's response: Denver `annual_mean` (data type `"03"`) is 100000. -/
def respBatch1 : Response :=
  Response.mk "REQUEST_SUCCEEDED"
    (some [SeriesJson.mk (some "OEUM001974000000015125203")
      (some [DataPoint.mk (some "2024") (some "100000")])])

/-- Batch 2's response: Denver `pct_10` (data type `"11"`) is 50000. -/
def respBatch2 : Response :=
  Response.mk "REQUEST_SUCCEEDED"
    (some [SeriesJson.mk (some "OEUM001974000000015125211")
      (some [DataPoint.mk (some "2024") (some "50000")])])

/-- The same two per-identifier results delivered in a single response. -/
def respCombined : Response :=
  Response.mk "REQUEST_SUCCEEDED"
    (some [SeriesJson.mk (some "OEUM001974000000015125203")
      (some [DataPoint.mk (some "2024") (some "100000")]),
     SeriesJson.mk (some "OEUM001974000000015125211")
      (some [DataPoint.mk (some "2024") (some "50000")])])

/-- Network oracle delivering `respBatch1` then `respBatch2`. -/
def fetchC1 : Nat → Option Response :=
  fun i => if i = 0 then some respBatch1 else some respBatch2

/-- Claim C1 (refuted — code bug): aggregation is *not* batching-independent.
Processing the two per-identifier results split across two batches (as the
pipeline's `master.update(partial)` loop does) yields the Denver record
with `annual_mean` *lost* (`none`), while parsing the same two results in
one batch yields both `annual_mean = 100000` and `pct_10 = 50000`.  The
claim fails because `dict.update` replaces, rather than merges, the record
of a key present in both partials — contradicting the module's own
documentation ("all available wage columns populated in a single upsert",
"the caller merges into the master"). -/
theorem batch_merge_loses_columns :
    ((dictGet? (mainRun 2024 25 socMapC1 fetchC1 (fun _ => none) []).master
        ("15-1252", "19740", 2024)).map (fun r => (r.annual_mean, r.pct_10))
      = some (none, some 50000)) ∧
    ((parse_response 2024 respCombined (seriesMetaOf socMapC1)).map (fun p =>
        (dictGet? p ("15-1252", "19740", 2024)).map
          (fun r => (r.annual_mean, r.pct_10)))
      = some (some (some 100000, some 50000))) := by
  decide

/-! ## C7: the load is idempotent -/

/-- A key present before an insert is still present after it. -/
theorem dbHasKey_insert {db : List DBRow} {row : DBRow} {k : Key}
    (h : dbHasKey db k = true) : dbHasKey (insertWageRow db row).1 k = true := by
  unfold insertWageRow
  split
  · exact h
  · unfold dbHasKey at h ⊢
    simp only [List.any_append, Bool.or_eq_true]
    exact Or.inl h

/-- The inserted row's own key is present after the insert. -/
theorem dbHasKey_insert_self (db : List DBRow) (row : DBRow) :
    dbHasKey (insertWageRow db row).1 (rowKey row) = true := by
  unfold insertWageRow
  split
  case isTrue h => exact h
  case isFalse h =>
    unfold dbHasKey
    simp

/-- After a successful `loadRows`, the table holds every loaded record's
key and every key it held before. -/
theorem loadRows_keys {insertErr : DBRow → Option String} :
    ∀ (rows : List WageRecord) (db : List DBRow) (w n : Nat)
      (db' : List DBRow),
      loadRows insertErr rows db w = Except.ok (n, db') →
      (∀ r ∈ rows, dbHasKey db' (rowKey (rowOfRecord r)) = true) ∧
      (∀ k, dbHasKey db k = true → dbHasKey db' k = true)
  | [], db, w, n, db', h => by
    unfold loadRows at h
    simp only [Except.ok.injEq, Prod.mk.injEq] at h
    exact ⟨fun r hr => absurd hr (List.not_mem_nil r),
      fun k hk => h.2 ▸ hk⟩
  | r :: rest, db, w, n, db', h => by
    unfold loadRows at h
    split at h
    · exact absurd h (by simp)
    · obtain ⟨hrest, hmono⟩ := loadRows_keys rest _ _ n db' h
      refine ⟨?_, fun k hk => hmono k (dbHasKey_insert hk)⟩
      intro r' hr'
      rcases List.mem_cons.mp hr' with hr' | hr'
      · subst hr'
        exact hmono _ (dbHasKey_insert_self db (rowOfRecord r'))
      · exact hrest r' hr'

/-- A failure-free load whose records all conflict writes nothing and
leaves the table unchanged. -/
theorem loadRows_all_conflict :
    ∀ (rows : List WageRecord) (db : List DBRow) (w : Nat),
      (∀ r ∈ rows, dbHasKey db (rowKey (rowOfRecord r)) = true) →
      loadRows (fun _ => none) rows db w = Except.ok (w, db)
  | [], db, w, _ => rfl
  | r :: rest, db, w, h => by
    unfold loadRows
    have hk : dbHasKey db (rowKey (rowOfRecord r)) = true :=
      h r (List.mem_cons_self r rest)
    simp only [insertWageRow, hk, if_true]
    exact loadRows_all_conflict rest db w
      (fun r' hr' => h r' (List.mem_cons_of_mem r hr'))

/-- Claim C7: the load is idempotent.  Each record is inserted with
conflict-skipping on `(soc_code, msa_code, reference_year)` and only rows
actually inserted are counted (both by construction of `insertWageRow` /
`loadRows`); re-loading the same aggregation into the table produced by a
first failure-free load writes zero new rows and returns the table
unchanged (no existing row's values change). -/
theorem load_wage_rows_idempotent (aggregated : Dict Key WageRecord)
    (db0 db1 : List DBRow) (n : Nat)
    (h : load_wage_rows (fun _ => none) db0 aggregated = Except.ok (n, db1)) :
    load_wage_rows (fun _ => none) db1 aggregated = Except.ok (0, db1) := by
  unfold load_wage_rows at h ⊢
  have hkeys :=
    (loadRows_keys (aggregated.map (fun kv => kv.2)) db0 0 n db1 h).1
  exact loadRows_all_conflict (aggregated.map (fun kv => kv.2)) db1 0 hkeys

/-- The aggregation used by the idempotence witness: one Denver record. -/
def aggC7 : Dict Key WageRecord :=
  [(("15-1252", "19740", 2024),
    { soc_code := "15-1252", soc_title := "Software Developers"
      msa_code := "19740", msa_name := "Denver CO", survey_year := 2024
      annual_mean := some 100000 })]

/-- The table state after the first load of `aggC7` into empty storage. -/
def dbC7 : List DBRow :=
  [{ soc_code := "15-1252", soc_title := "Software Developers"
     msa_code := "19740", msa_name := "Denver CO", reference_year := 2024
     annual_mean := some 100000, pct_10 := none, pct_25 := none
     pct_50 := none, pct_75 := none, pct_90 := none
     data_source := "BLS_OEWS" }]

/-- Closed witness for `load_wage_rows_idempotent`: loading `aggC7` into an
empty table writes one row giving `dbC7`; re-loading writes zero rows and
leaves `dbC7` unchanged. -/
theorem load_wage_rows_idempotent_witness :
    load_wage_rows (fun _ => none) dbC7 aggC7 = Except.ok (0, dbC7) :=
  load_wage_rows_idempotent aggC7 [] dbC7 1 rfl

/-! ## C5: a record exists iff some series contributed a non-null value -/

/-- Lookup after a dict assignment. -/
theorem dictGet?_dictInsert {α β : Type} [DecidableEq α]
    (m : Dict α β) (k k' : α) (v : β) :
    dictGet? (dictInsert m k v) k' = if k = k' then some v else dictGet? m k' := by
  induction m with
  | nil => by_cases hk' : k = k' <;> simp [dictInsert, dictGet?, hk']
  | cons kv t ih =>
    obtain ⟨a, b⟩ := kv
    by_cases hak : a = k
    · subst hak
      by_cases hk' : a = k' <;> simp [dictInsert, dictGet?, hk']
    · by_cases hk' : a = k'
      · subst hk'
        have hka : ¬ k = a := fun hh => hak hh.symm
        simp [dictInsert, dictGet?, hak, hka]
      · simp [dictInsert, dictGet?, hak, hk', ih]

/-- A key is present after `dict.update` iff it is present in either
operand. -/
theorem dictUpdate_isSome {α β : Type} [DecidableEq α] (p : Dict α β) :
    ∀ (d : Dict α β) (k : α),
      (dictGet? (dictUpdate d p) k).isSome
        = ((dictGet? d k).isSome || (dictGet? p k).isSome) := by
  induction p with
  | nil => intro d k; simp [dictUpdate, dictGet?]
  | cons kv t ih =>
    intro d k
    obtain ⟨a, b⟩ := kv
    rw [show dictUpdate d ((a, b) :: t) = dictUpdate (dictInsert d a b) t
      from rfl]
    rw [ih, dictGet?_dictInsert]
    by_cases hak : a = k <;> simp [dictGet?, hak]

/-- Whether one per-series JSON object contributes a value to key `k`:
recognized identifier, non-empty data, parseable year, non-null wage, and
the derived key is `k`. -/
def seriesContributes (survey_year : Int) (series_meta : Dict String SeriesDesc)
    (k : Key) (series : SeriesJson) : Bool :=
  match dictGet? series_meta (series.seriesID.getD "") with
  | none => false
  | some meta =>
    match series.data.getD [] with
    | [] => false
    | point :: _ =>
      match pointYear survey_year point with
      | none => false
      | some year =>
        match safe_wage (point.value.getD "") with
        | none => false
        | some _ => decide (k = (meta.soc_code, meta.msa_code, year))

/-- Whether a response contributes a value to key `k`. -/
def respContributes (survey_year : Int) (series_meta : Dict String SeriesDesc)
    (k : Key) (resp : Response) : Bool :=
  match resp.series with
  | none => false
  | some l => l.any (seriesContributes survey_year series_meta k)

/-- Whether one loop iteration's (batch, fetch outcome) pair contributes a
value to key `k` (a failed fetch never does). -/
def pairContributes (survey_year : Int) (series_meta : Dict String SeriesDesc)
    (k : Key) (pr : List String × Option Response) : Bool :=
  match pr.2 with
  | none => false
  | some resp => respContributes survey_year series_meta k resp

/-- One `parse_response` iteration adds exactly the contributed key. -/
theorem parseOneSeries_mem {sy : Int} {series_meta : Dict String SeriesDesc}
    {series : SeriesJson} {pmap pmap' : Dict Key WageRecord}
    (h : parseOneSeries sy series_meta series pmap = some pmap') (k : Key) :
    (dictGet? pmap' k).isSome
      = (seriesContributes sy series_meta k series
          || (dictGet? pmap k).isSome) := by
  unfold seriesContributes
  cases hm : dictGet? series_meta (series.seriesID.getD "") with
  | none =>
    simp only [parseOneSeries, hm] at h
    cases h
    simp
  | some meta =>
    simp only [parseOneSeries, hm] at h
    cases hd : series.data.getD [] with
    | nil =>
      simp only [hd] at h
      cases h
      simp
    | cons point rest =>
      simp only [hd] at h
      cases hy : pointYear sy point with
      | none => simp only [hy] at h; exact absurd h (by simp)
      | some year =>
        simp only [hy] at h
        cases hw : safe_wage (point.value.getD "") with
        | none =>
          simp only [hw] at h
          cases h
          simp [hy, hw]
        | some wage =>
          simp only [hw, Option.some.injEq] at h
          subst h
          rw [dictGet?_dictInsert]
          by_cases hk : (meta.soc_code, meta.msa_code, year) = k
          · simp [hy, hw, hk]
          · have hk' : ¬ k = (meta.soc_code, meta.msa_code, year) :=
              fun hh => hk hh.symm
            simp [hy, hw, hk, hk']

/-- The series loop of `parse_response` adds exactly the contributed keys. -/
theorem parseSeriesList_mem {sy : Int} {series_meta : Dict String SeriesDesc} :
    ∀ (l : List SeriesJson) (pmap pmap' : Dict Key WageRecord),
      parseSeriesList sy series_meta l pmap = some pmap' → ∀ k : Key,
      (dictGet? pmap' k).isSome
        = (l.any (seriesContributes sy series_meta k)
            || (dictGet? pmap k).isSome)
  | [], pmap, pmap', h, k => by
    cases h
    simp
  | series :: rest, pmap, pmap', h, k => by
    cases hone : parseOneSeries sy series_meta series pmap with
    | none =>
      simp only [parseSeriesList, hone] at h
      exact absurd h (by simp)
    | some pmap₁ =>
      simp only [parseSeriesList, hone] at h
      rw [parseSeriesList_mem rest pmap₁ pmap' h k,
        parseOneSeries_mem hone k, List.any_cons]
      cases seriesContributes sy series_meta k series <;>
        cases rest.any (seriesContributes sy series_meta k) <;> simp

/-- A key is present in a parsed partial dict iff the response contributed
a value to it. -/
theorem parse_response_mem {sy : Int} {series_meta : Dict String SeriesDesc}
    {resp : Response} {pmap' : Dict Key WageRecord}
    (h : parse_response sy resp series_meta = some pmap') (k : Key) :
    (dictGet? pmap' k).isSome = respContributes sy series_meta k resp := by
  unfold respContributes
  cases hs : resp.series with
  | none =>
    simp only [parse_response, hs] at h
    cases h
    simp [dictGet?]
  | some l =>
    simp only [parse_response, hs] at h
    rw [parseSeriesList_mem l [] pmap' h k]
    simp [dictGet?]

/-- One batch-loop iteration adds exactly the keys contributed by its
fetch outcome. -/
theorem processBatch_mem {sy : Int} {series_meta : Dict String SeriesDesc}
    {st st' : LoopState} {ids : List String} {resp? : Option Response}
    (h : processBatch sy series_meta st ids resp? = some st') (k : Key) :
    (dictGet? st'.master k).isSome
      = (pairContributes sy series_meta k (ids, resp?)
          || (dictGet? st.master k).isSome) := by
  unfold pairContributes
  cases resp? with
  | none =>
    simp only [processBatch] at h
    cases h
    simp
  | some resp =>
    simp only [processBatch] at h
    cases hp : parse_response sy resp series_meta with
    | none =>
      simp only [hp] at h
      exact absurd h (by simp)
    | some pmap =>
      simp only [hp, Option.some.injEq] at h
      subst h
      dsimp only
      rw [dictUpdate_isSome, parse_response_mem hp k]
      cases respContributes sy series_meta k resp <;> simp

/-- Across `main`'s whole batch loop (when no parse raised), a key is
present in the master aggregation iff it was present initially or some
batch contributed a value to it. -/
theorem runBatches_mem {sy : Int} {series_meta : Dict String SeriesDesc} :
    ∀ (l : List (List String × Option Response)) (st st' : LoopState),
      runBatches sy series_meta l st = (st', none) → ∀ k : Key,
      (dictGet? st'.master k).isSome
        = (l.any (pairContributes sy series_meta k)
            || (dictGet? st.master k).isSome)
  | [], st, st', h, k => by
    simp only [runBatches, Prod.mk.injEq] at h
    obtain ⟨h1, -⟩ := h
    subst h1
    simp
  | (ids, resp?) :: rest, st, st', h, k => by
    cases hpb : processBatch sy series_meta st ids resp? with
    | none =>
      simp only [runBatches, hpb] at h
      simp at h
    | some st₁ =>
      simp only [runBatches, hpb] at h
      rw [runBatches_mem rest st₁ st' h k, processBatch_mem hpb k,
        List.any_cons]
      cases pairContributes sy series_meta k (ids, resp?) <;>
        cases rest.any (pairContributes sy series_meta k) <;> simp

/-- Claim C5: after processing any sequence of batch outcomes from an empty
master, a record for key `(soc_code, msa_code, year)` exists in the
aggregation iff at least one batch's response carried a series that maps to
that key with a non-null parsed value.  (Records with only suppressed,
absent, or unparseable values never appear; creation on first contribution
is `parseOneSeries`'s `dictInsert`.) -/
theorem wage_record_iff_contribution (sy : Int)
    (series_meta : Dict String SeriesDesc)
    (l : List (List String × Option Response)) (st' : LoopState)
    (h : runBatches sy series_meta l {} = (st', none)) (k : Key) :
    (dictGet? st'.master k).isSome = true
      ↔ l.any (pairContributes sy series_meta k) = true := by
  have hm := runBatches_mem l {} st' h k
  rw [show (dictGet? ({} : LoopState).master k).isSome = false from rfl,
    Bool.or_false] at hm
  rw [hm]

/-- The single-batch input of the C5 witness. -/
def pairsC5 : List (List String × Option Response) :=
  [(["OEUM001974000000015125203"], some respBatch1)]

/-- The loop state the C5 witness's run produces. -/
def stC5 : LoopState :=
  (runBatches 2024 (seriesMetaOf socMapC1) pairsC5 {}).1

/-- Closed witness for `wage_record_iff_contribution`: one batch whose
response carries Denver `annual_mean = 100000` creates exactly the Denver
key. -/
theorem wage_record_iff_contribution_witness :
    (dictGet? stC5.master ("15-1252", "19740", 2024)).isSome = true
      ↔ pairsC5.any (pairContributes 2024 (seriesMetaOf socMapC1)
          ("15-1252", "19740", 2024)) = true :=
  wage_record_iff_contribution 2024 (seriesMetaOf socMapC1) pairsC5 stC5
    (by decide) ("15-1252", "19740", 2024)

/-! ## C6: a failed batch degrades to gaps, the run still succeeds -/

/-- A failure-free load always returns `ok`. -/
theorem loadRows_no_err :
    ∀ (rows : List WageRecord) (db : List DBRow) (w : Nat),
      ∃ n db', loadRows (fun _ => none) rows db w = Except.ok (n, db')
  | [], db, w => ⟨w, db, rfl⟩
  | r :: rest, db, w =>
    loadRows_no_err rest (insertWageRow db (rowOfRecord r)).1
      (w + (insertWageRow db (rowOfRecord r)).2)

/-- A failure-free `load_wage_rows` always returns `ok`. -/
theorem load_wage_rows_no_err (db : List DBRow)
    (aggregated : Dict Key WageRecord) :
    ∃ n db',
      load_wage_rows (fun _ => none) db aggregated = Except.ok (n, db') := by
  unfold load_wage_rows
  exact loadRows_no_err (aggregated.map (fun kv => kv.2)) db 0

/-- Splitting the batch loop at an exception-free prefix. -/
theorem runBatches_append_ok {sy : Int} {series_meta : Dict String SeriesDesc} :
    ∀ (l₁ : List (List String × Option Response))
      {l₂ : List (List String × Option Response)} {st st₁ : LoopState},
      runBatches sy series_meta l₁ st = (st₁, none) →
      runBatches sy series_meta (l₁ ++ l₂) st
        = runBatches sy series_meta l₂ st₁
  | [], _, st, st₁, h => by
    simp only [runBatches, Prod.mk.injEq] at h
    obtain ⟨h1, -⟩ := h
    subst h1
    rfl
  | (ids, resp?) :: t, l₂, st, st₁, h => by
    cases hpb : processBatch sy series_meta st ids resp? with
    | none => simp only [runBatches, hpb] at h; simp at h
    | some stx =>
      simp only [runBatches, hpb] at h
      rw [List.cons_append]
      simp only [runBatches, hpb]
      exact runBatches_append_ok t h

/-- An exception-free loop run has an exception-free prefix run. -/
theorem runBatches_ok_prefix {sy : Int} {series_meta : Dict String SeriesDesc} :
    ∀ (l₁ : List (List String × Option Response))
      {l₂ : List (List String × Option Response)} {st st' : LoopState},
      runBatches sy series_meta (l₁ ++ l₂) st = (st', none) →
      ∃ st₁, runBatches sy series_meta l₁ st = (st₁, none) ∧
        runBatches sy series_meta l₂ st₁ = (st', none)
  | [], _, st, st', h => ⟨st, rfl, h⟩
  | (ids, resp?) :: t, l₂, st, st', h => by
    cases hpb : processBatch sy series_meta st ids resp? with
    | none =>
      rw [List.cons_append] at h
      simp only [runBatches, hpb] at h
      simp at h
    | some stx =>
      rw [List.cons_append] at h
      simp only [runBatches, hpb] at h
      obtain ⟨st₁, h1, h2⟩ := runBatches_ok_prefix t h
      refine ⟨st₁, ?_, h2⟩
      simp only [runBatches, hpb]
      exact h1

/-- One loop iteration never discards a recorded gap. -/
theorem processBatch_gaps_mono {sy : Int}
    {series_meta : Dict String SeriesDesc} {st st' : LoopState}
    {ids : List String} {resp? : Option Response}
    (h : processBatch sy series_meta st ids resp? = some st')
    {sid : String} (hsid : sid ∈ st.series_gaps) : sid ∈ st'.series_gaps := by
  cases resp? with
  | none =>
    simp only [processBatch] at h
    cases h
    exact List.mem_append_left _ hsid
  | some resp =>
    simp only [processBatch] at h
    cases hp : parse_response sy resp series_meta with
    | none =>
      simp only [hp] at h
      exact absurd h (by simp)
    | some pmap =>
      simp only [hp, Option.some.injEq] at h
      subst h
      exact List.mem_append_left _ hsid

/-- The whole loop never discards a recorded gap (also across a trailing
exception). -/
theorem runBatches_gaps_mono {sy : Int}
    {series_meta : Dict String SeriesDesc} :
    ∀ (l : List (List String × Option Response)) (st : LoopState)
      {sid : String}, sid ∈ st.series_gaps →
      sid ∈ (runBatches sy series_meta l st).1.series_gaps
  | [], st, sid, hsid => hsid
  | (ids, resp?) :: t, st, sid, hsid => by
    cases hpb : processBatch sy series_meta st ids resp? with
    | none => simp only [runBatches, hpb]; exact hsid
    | some stx =>
      simp only [runBatches, hpb]
      exact runBatches_gaps_mono t stx (processBatch_gaps_mono hpb hsid)

/-- The loop's master aggregation, series-with-data counter and exception
outcome do not depend on the gap list carried in the state. -/
theorem runBatches_agree {sy : Int} {series_meta : Dict String SeriesDesc} :
    ∀ (l : List (List String × Option Response)) (st₁ st₂ : LoopState),
      st₁.master = st₂.master →
      st₁.series_with_data = st₂.series_with_data →
      (runBatches sy series_meta l st₁).1.master
          = (runBatches sy series_meta l st₂).1.master ∧
        (runBatches sy series_meta l st₁).1.series_with_data
          = (runBatches sy series_meta l st₂).1.series_with_data ∧
        (runBatches sy series_meta l st₁).2
          = (runBatches sy series_meta l st₂).2
  | [], st₁, st₂, hm, hw => ⟨hm, hw, rfl⟩
  | (ids, resp?) :: t, st₁, st₂, hm, hw => by
    cases resp? with
    | none =>
      simp only [runBatches, processBatch]
      exact runBatches_agree t _ _ hm hw
    | some resp =>
      cases hp : parse_response sy resp series_meta with
      | none =>
        simp only [runBatches, processBatch, hp]
        refine ⟨hm, hw, ?_⟩
        trivial
      | some pmap =>
        simp only [runBatches, processBatch, hp]
        refine runBatches_agree t _ _ ?_ ?_
        · show dictUpdate st₁.master pmap = dictUpdate st₂.master pmap
          rw [hm]
        · show st₁.series_with_data + _ = st₂.series_with_data + _
          rw [hw]

/-- Non-emptiness transfers to `isEmpty = false`. -/
theorem isEmpty_eq_false_of_ne_nil {α : Type} {l : List α} (h : l ≠ []) :
    l.isEmpty = false := by
  cases l with
  | nil => exact absurd rfl h
  | cons a t => rfl

/-- When the loop finished without a parse exception and inserts never
fail, `main` ends SUCCESS / exit 0 with the loop's gap list and master. -/
theorem mainRun_eq_success {sy : Int} {bs : Nat}
    {soc_map : Dict String String} {fetch : Nat → Option Response}
    {db0 : List DBRow} {st' : LoopState}
    (hsoc : soc_map ≠ [])
    (hok : mainRunLoop sy bs soc_map fetch = (st', none)) :
    ∃ w db',
      mainRun sy bs soc_map fetch (fun _ => none) db0 =
        { status := "SUCCESS", error_msg := none
          records_requested := (build_all_series soc_map).length
          records_received := st'.master.length
          records_written := w
          series_gaps := st'.series_gaps, master := st'.master
          db := db'
          audit := [auditRow "SUCCESS" (build_all_series soc_map).length
            st'.master.length w none]
          exit_code := 0 } := by
  unfold mainRun
  rw [isEmpty_eq_false_of_ne_nil hsoc]
  rw [hok]
  simp only [Bool.false_eq_true, if_false]
  unfold finishRun
  by_cases hlen : st'.master.length > 0
  · obtain ⟨n, db', hload⟩ := load_wage_rows_no_err db0 st'.master
    rw [if_pos hlen, hload]
    exact ⟨n, db', rfl⟩
  · rw [if_neg hlen]
    exact ⟨0, db0, rfl⟩

/-- Claim C6: when one batch's fetch fails (no response) while every other
batch parses cleanly and no insert fails, that batch contributes nothing,
all of its identifiers are recorded as gaps, the other batches still
contribute exactly their data (same master aggregation and same
series-with-data count as the run without the failed batch), and the run
still finishes with status SUCCESS, exit code 0 and a non-empty gap
report. -/
theorem failed_batch_gaps_run_succeeds {sy : Int} {bs : Nat}
    {soc_map : Dict String String} {fetch : Nat → Option Response}
    {db0 : List DBRow} {st' : LoopState}
    {l₁ l₂ : List (List String × Option Response)} {ids : List String}
    (hsoc : soc_map ≠ [])
    (hdec : pairList bs soc_map fetch = l₁ ++ (ids, none) :: l₂)
    (hids : ids ≠ [])
    (hok : runBatches sy (seriesMetaOf soc_map)
      (pairList bs soc_map fetch) {} = (st', none)) :
    (mainRun sy bs soc_map fetch (fun _ => none) db0).status = "SUCCESS" ∧
    (mainRun sy bs soc_map fetch (fun _ => none) db0).exit_code = 0 ∧
    (∀ sid ∈ ids,
      sid ∈ (mainRun sy bs soc_map fetch (fun _ => none) db0).series_gaps) ∧
    (mainRun sy bs soc_map fetch (fun _ => none) db0).series_gaps ≠ [] ∧
    (∃ st'', runBatches sy (seriesMetaOf soc_map) (l₁ ++ l₂) {}
        = (st'', none) ∧
      st''.master = st'.master ∧
      st''.series_with_data = st'.series_with_data) := by
  obtain ⟨w, db', heq⟩ := mainRun_eq_success hsoc hok
  rw [hdec] at hok
  obtain ⟨stA, hA, hrest⟩ := runBatches_ok_prefix l₁ hok
  have hstep : processBatch sy (seriesMetaOf soc_map) stA ids none
      = some { stA with series_gaps := stA.series_gaps ++ ids } := rfl
  have hrest2 : runBatches sy (seriesMetaOf soc_map) l₂
      { stA with series_gaps := stA.series_gaps ++ ids } = (st', none) := by
    simpa only [runBatches, hstep] using hrest
  have hsub : ∀ sid ∈ ids, sid ∈ st'.series_gaps := by
    intro sid hsid
    have h1 : sid ∈ ({ stA with series_gaps := stA.series_gaps ++ ids }
        : LoopState).series_gaps := List.mem_append_right _ hsid
    have h2 := @runBatches_gaps_mono sy (seriesMetaOf soc_map) l₂ _ sid h1
    rw [hrest2] at h2
    exact h2
  refine ⟨by rw [heq], by rw [heq], ?_, ?_, ?_⟩
  · intro sid hsid
    rw [heq]
    exact hsub sid hsid
  · rw [heq]
    obtain ⟨sid, hsid⟩ := List.exists_mem_of_ne_nil ids hids
    exact List.ne_nil_of_mem (hsub sid hsid)
  · have hagree := @runBatches_agree sy (seriesMetaOf soc_map) l₂
      stA { stA with series_gaps := stA.series_gaps ++ ids } rfl rfl
    rw [hrest2] at hagree
    obtain ⟨ham, haw, hae⟩ := hagree
    have hsplit := @runBatches_append_ok sy (seriesMetaOf soc_map) l₁ l₂ _ _ hA
    refine ⟨(runBatches sy (seriesMetaOf soc_map) l₂ stA).1, ?_, ham, haw⟩
    rw [hsplit]
    exact Prod.ext rfl hae

/-- Batch 1's response in the C6 witness run: Austin `annual_mean`. -/
def respW1 : Response :=
  Response.mk "REQUEST_SUCCEEDED"
    (some [SeriesJson.mk (some "OEUM001242000000015125203")
      (some [DataPoint.mk (some "2024") (some "100000")])])

/-- Batch 3's response in the C6 witness run: Denver `pct_10`. -/
def respW2 : Response :=
  Response.mk "REQUEST_SUCCEEDED"
    (some [SeriesJson.mk (some "OEUM001974000000015125211")
      (some [DataPoint.mk (some "2024") (some "50000")])])

/-- Network oracle of the C6 witness run: batch 2 of 3 suffers a transport
error (`none`); batches 1 and 3 respond. -/
def fetchC6 : Nat → Option Response :=
  fun i => if i = 0 then some respW1 else if i = 1 then none else some respW2

/-- The identifier lists of the three batches of the C6 witness run
(batch size 10 over the 30 series of the one-occupation catalog). -/
def idsB0 : List String :=
  ((chunkList 10 (build_all_series socMapC1)).getD 0 []).map
    (fun s => s.series_id)

/-- Batch 2's identifiers in the C6 witness run. -/
def idsB1 : List String :=
  ((chunkList 10 (build_all_series socMapC1)).getD 1 []).map
    (fun s => s.series_id)

/-- Batch 3's identifiers in the C6 witness run. -/
def idsB2 : List String :=
  ((chunkList 10 (build_all_series socMapC1)).getD 2 []).map
    (fun s => s.series_id)

/-- The final loop state of the C6 witness run. -/
def stC6 : LoopState :=
  (runBatches 2024 (seriesMetaOf socMapC1)
    (pairList 10 socMapC1 fetchC6) {}).1

/-- Closed witness for `failed_batch_gaps_run_succeeds`: with batch 2 of 3
failing, the run is SUCCESS / exit 0, all ten batch-2 identifiers are
gapped, the gap report is non-empty, and batches 1 and 3 contribute
exactly what they would without the failed batch. -/
theorem failed_batch_gaps_run_succeeds_witness :
    (mainRun 2024 10 socMapC1 fetchC6 (fun _ => none) []).status
        = "SUCCESS" ∧
    (mainRun 2024 10 socMapC1 fetchC6 (fun _ => none) []).exit_code = 0 ∧
    (∀ sid ∈ idsB1,
      sid ∈ (mainRun 2024 10 socMapC1 fetchC6
        (fun _ => none) []).series_gaps) ∧
    (mainRun 2024 10 socMapC1 fetchC6 (fun _ => none) []).series_gaps
        ≠ [] ∧
    (∃ st'', runBatches 2024 (seriesMetaOf socMapC1)
        ([(idsB0, some respW1)] ++ [(idsB2, some respW2)]) {}
        = (st'', none) ∧
      st''.master = stC6.master ∧
      st''.series_with_data = stC6.series_with_data) :=
  @failed_batch_gaps_run_succeeds 2024 10 socMapC1 fetchC6 [] stC6
    [(idsB0, some respW1)] [(idsB2, some respW2)] idsB1
    (by decide) (by decide) (by decide) (by decide)

/-! ## C8: a load failure is atomic, fatal and audited -/

/-- Claim C8: if any insert of the load raises, the whole transaction is
rolled back — the table stays exactly `db0`, no partial subset of the
aggregation is persisted — the exception propagates to the top level, the
run ends FAILED with that exception's message and exit code 1, and exactly
one audit row is written carrying the counts known at that point
(`records_received` from the aggregation, `records_written = 0`). -/
theorem load_failure_rolls_back_and_audits {sy : Int} {bs : Nat}
    {soc_map : Dict String String} {fetch : Nat → Option Response}
    {insertErr : DBRow → Option String} {db0 : List DBRow}
    {st' : LoopState} {msg : String}
    (hsoc : soc_map ≠ [])
    (hok : mainRunLoop sy bs soc_map fetch = (st', none))
    (hfail : load_wage_rows insertErr db0 st'.master = Except.error msg) :
    mainRun sy bs soc_map fetch insertErr db0 =
      { status := "FAILED", error_msg := some msg
        records_requested := (build_all_series soc_map).length
        records_received := st'.master.length
        records_written := 0
        series_gaps := st'.series_gaps, master := st'.master
        db := db0
        audit := [auditRow "FAILED" (build_all_series soc_map).length
          st'.master.length 0 (some msg)]
        exit_code := 1 } := by
  have hlen : st'.master.length > 0 := by
    cases hm : st'.master with
    | nil =>
      rw [hm] at hfail
      exact absurd hfail (by simp [load_wage_rows, loadRows])
    | cons kv t => simp [hm]
  unfold mainRun
  rw [isEmpty_eq_false_of_ne_nil hsoc]
  rw [hok]
  simp only [Bool.false_eq_true, if_false]
  unfold finishRun
  rw [if_pos hlen, hfail]

/-- The insert-failure oracle of the C8 witness: every insert raises a
uniqueness violation. -/
def insertErrC8 : DBRow → Option String :=
  fun _ => some "duplicate key value violates unique constraint"

/-- The loop state of the C8 witness run (same fetch outcomes as the C1
scenario; the loop itself is exception-free). -/
def stC8 : LoopState := (mainRunLoop 2024 25 socMapC1 fetchC1).1

/-- Closed witness for `load_failure_rolls_back_and_audits`: the C1
scenario's aggregation hits a constraint violation on load — run FAILED,
table still empty, one FAILED audit row, exit 1. -/
theorem load_failure_rolls_back_and_audits_witness :
    mainRun 2024 25 socMapC1 fetchC1 insertErrC8 [] =
      { status := "FAILED"
        error_msg := some "duplicate key value violates unique constraint"
        records_requested := 30
        records_received := stC8.master.length
        records_written := 0
        series_gaps := stC8.series_gaps, master := stC8.master
        db := []
        audit := [auditRow "FAILED" 30 stC8.master.length 0
          (some "duplicate key value violates unique constraint")]
        exit_code := 1 } :=
  load_failure_rolls_back_and_audits (by decide) (by decide) rfl

/-! ## C10: `parse_response` is total except for the year field -/

/-- One series iteration cannot raise when its present year fields all
parse as integers: unknown identifiers, missing `seriesID`, empty data and
non-numeric value strings are all skipped. -/
theorem parseOneSeries_isSome {sy : Int}
    {series_meta : Dict String SeriesDesc} {series : SeriesJson}
    (pmap : Dict Key WageRecord)
    (h : ∀ p ∈ series.data.getD [], ∀ ys, p.year = some ys →
      (pyInt? ys).isSome = true) :
    (parseOneSeries sy series_meta series pmap).isSome = true := by
  unfold parseOneSeries
  cases hm : dictGet? series_meta (series.seriesID.getD "") with
  | none => rfl
  | some meta =>
    dsimp only
    cases hd : series.data.getD [] with
    | nil => rfl
    | cons point rest =>
      dsimp only
      cases hy : pointYear sy point with
      | none =>
        exfalso
        unfold pointYear at hy
        cases hyr : point.year with
        | none =>
          simp only [hyr] at hy
          exact absurd hy (by simp)
        | some ys =>
          simp only [hyr] at hy
          have hp := h point (by rw [hd]; exact List.mem_cons_self _ _) ys hyr
          rw [hy] at hp
          exact absurd hp (by simp)
      | some year =>
        dsimp only
        cases hw : safe_wage (point.value.getD "") with
        | none => rfl
        | some wage => rfl

/-- The series loop cannot raise when every present year field parses. -/
theorem parseSeriesList_isSome {sy : Int}
    {series_meta : Dict String SeriesDesc} :
    ∀ (l : List SeriesJson) (pmap : Dict Key WageRecord),
      (∀ s ∈ l, ∀ p ∈ s.data.getD [], ∀ ys, p.year = some ys →
        (pyInt? ys).isSome = true) →
      (parseSeriesList sy series_meta l pmap).isSome = true
  | [], _, _ => rfl
  | series :: rest, pmap, h => by
    have h1 := @parseOneSeries_isSome sy series_meta series pmap
      (h series (List.mem_cons_self _ _))
    cases hone : parseOneSeries sy series_meta series pmap with
    | none => rw [hone] at h1; exact absurd h1 (by simp)
    | some pmap₁ =>
      simp only [parseSeriesList, hone]
      exact parseSeriesList_isSome rest pmap₁
        (fun s hs => h s (List.mem_cons_of_mem _ hs))

/-- A response whose series carry a data point with a non-decimal year
string: Denver `annual_mean` with `year = "20x4"`. -/
def respBadYear : Response :=
  Response.mk "REQUEST_SUCCEEDED"
    (some [SeriesJson.mk (some "OEUM001974000000015125203")
      (some [DataPoint.mk (some "20x4") (some "100000")])])

/-- Claim C10: `parse_response` is total over malformed per-series content
except for the year field.  (i) Whenever every present year field of the
response parses as a decimal integer, `parse_response` returns a value —
unrecognized identifiers, missing `seriesID`, empty data lists and
non-numeric value strings are skipped, never raised on.  (ii) A data point
whose year field is present but not a decimal integer string makes
`parse_response` raise (`none`), and (iii) in a full run that exception
escalates to a FAILED run with exit code 1. -/
theorem parse_response_total_except_year :
    (∀ (sy : Int) (resp : Response)
      (series_meta : Dict String SeriesDesc),
      (∀ s ∈ resp.series.getD [], ∀ p ∈ s.data.getD [], ∀ ys,
        p.year = some ys → (pyInt? ys).isSome = true) →
      (parse_response sy resp series_meta).isSome = true) ∧
    parse_response 2024 respBadYear (seriesMetaOf socMapC1) = none ∧
    (mainRun 2024 25 socMapC1 (fun _ => some respBadYear)
      (fun _ => none) []).status = "FAILED" ∧
    (mainRun 2024 25 socMapC1 (fun _ => some respBadYear)
      (fun _ => none) []).exit_code = 1 := by
  refine ⟨?_, by decide, by decide, by decide⟩
  intro sy resp series_meta h
  unfold parse_response
  cases hs : resp.series with
  | none => rfl
  | some l =>
    rw [hs] at h
    exact parseSeriesList_isSome l [] (by simpa using h)

/-- A response exercising every skip path at once: an unrecognized
identifier, a missing `seriesID`, a recognized series with an empty data
list, and a recognized series with a non-numeric value — all with
well-formed years. -/
def respMalformed : Response :=
  Response.mk "REQUEST_SUCCEEDED"
    (some [SeriesJson.mk (some "UNKNOWN0000000000000000")
        (some [DataPoint.mk (some "2024") (some "100000")]),
      SeriesJson.mk none (some [DataPoint.mk (some "2024") (some "1")]),
      SeriesJson.mk (some "OEUM001242000000015125203") (some []),
      SeriesJson.mk (some "OEUM001974000000015125203")
        (some [DataPoint.mk (some "2024") (some "12x")])])

/-- Closed witness for `parse_response_total_except_year`: the all-skips
response parses without raising. -/
theorem parse_response_total_except_year_witness :
    (parse_response 2024 respMalformed (seriesMetaOf socMapC1)).isSome
      = true :=
  parse_response_total_except_year.1 2024 respMalformed
    (seriesMetaOf socMapC1) (by decide)

/-! ## C9: records are keyed by the data point's own year -/

/-- Claim C9: `parse_response` keys each aggregated record by the year
carried in the data point itself — whatever year was requested — falling
back to the configured survey year only when the data point has no year
field.  For a recognized single-series response whose first data point
reports year string `ys` parsing to `y` and a non-null value, the sole
record is keyed `(soc, msa, y)`; with the year field absent it is keyed
`(soc, msa, survey_year)`. -/
theorem parse_response_uses_reported_year {survey_year : Int}
    {series_meta : Dict String SeriesDesc} {st : String} {sid : String}
    {meta : SeriesDesc} {ys vs : String} {y : Int} {w : ℚ}
    {rest : List DataPoint}
    (hmeta : dictGet? series_meta sid = some meta)
    (hy : pyInt? ys = some y)
    (hw : safe_wage vs = some w) :
    parse_response survey_year
        (Response.mk st (some [SeriesJson.mk (some sid)
          (some (DataPoint.mk (some ys) (some vs) :: rest))])) series_meta
      = some [((meta.soc_code, meta.msa_code, y),
          setCol { soc_code := meta.soc_code, soc_title := meta.soc_title
                   msa_code := meta.msa_code, msa_name := meta.msa_name
                   survey_year := y } meta.col_name w)] ∧
    parse_response survey_year
        (Response.mk st (some [SeriesJson.mk (some sid)
          (some (DataPoint.mk none (some vs) :: rest))])) series_meta
      = some [((meta.soc_code, meta.msa_code, survey_year),
          setCol { soc_code := meta.soc_code, soc_title := meta.soc_title
                   msa_code := meta.msa_code, msa_name := meta.msa_name
                   survey_year := survey_year } meta.col_name w)] := by
  constructor
  · simp only [parse_response, parseSeriesList, parseOneSeries, pointYear,
      Option.getD, hmeta, hy, hw]
    rfl
  · simp only [parse_response, parseSeriesList, parseOneSeries, pointYear,
      Option.getD, hmeta, hw]
    rfl

/-- Closed witness for `parse_response_uses_reported_year`: a 2023 data
point, requested year 2024 — the record lands under 2023 (and under 2024
only via the missing-year fallback). -/
theorem parse_response_uses_reported_year_witness :
    parse_response 2024
        (Response.mk "REQUEST_SUCCEEDED"
          (some [SeriesJson.mk (some "OEUM001974000000015125203")
            (some [DataPoint.mk (some "2023") (some "100000")])]))
        (seriesMetaOf socMapC1)
      = some [(("15-1252", "19740", 2023),
          setCol { soc_code := "15-1252"
                   soc_title := "Software Developers"
                   msa_code := "19740", msa_name := "Denver CO"
                   survey_year := 2023 } "annual_mean" 100000)] :=
  (@parse_response_uses_reported_year 2024 (seriesMetaOf socMapC1)
    "REQUEST_SUCCEEDED" "OEUM001974000000015125203"
    { series_id := "OEUM001974000000015125203"
      msa_name := "Denver CO", msa_code := "19740"
      soc_code := "15-1252", soc_title := "Software Developers"
      data_type := "03", col_name := "annual_mean" }
    "2023" "100000" 2023 100000 []
    (by decide) (by decide) (by decide)).1

end BLSPipeline
